import Mathlib

/-!
Shallow embedding of the dk Spotify-dashboard repository
(src/app.py, src/spotify_etl.py) and proofs about its behaviour.

The repository is a Streamlit app: OAuth authorization-code exchange,
extraction of four Spotify resources, upload of the raw JSON to S3,
a fixed sleep, a single processed-data lookup, and six display sections.
External collaborators (the Spotify client library, the S3 service, the
Lambda transformer) are modelled as capabilities, per the specification.
-/

namespace DK

/-! ## Python string replace and the processed-key derivation

app.py line 202 computes the processed key with
raw_key.replace("raw/", "processed/").replace(".json", ".processed.json").
Python str.replace(old, new) replaces every non-overlapping occurrence of
old, scanning left to right.  We embed it on List Char with an explicit
fuel argument so that the definition is structurally recursive; the fuel
is always instantiated with the length of the scanned string, which
suffices because every step consumes at least one character.  (The Python
special case of an empty old pattern never arises here: both patterns of
the source are non-empty.) -/
def replaceFuel (old new : List Char) : Nat → List Char → List Char
  | 0, s => s
  | _ + 1, [] => []
  | fuel + 1, c :: rest =>
    if old ≠ [] ∧ old.isPrefixOf (c :: rest) then
      new ++ replaceFuel old new fuel ((c :: rest).drop old.length)
    else
      c :: replaceFuel old new fuel rest

/-- Embeds Python s.replace(old, new). -/
def pyReplace (s old new : String) : String :=
  ⟨replaceFuel old.data new.data s.data.length s.data⟩

/-- Embeds app.py line 202:
processed_key = raw_key.replace("raw/", "processed/").replace(".json", ".processed.json"). -/
def derive_processed_key (raw_key : String) : String :=
  pyReplace (pyReplace raw_key "raw/" "processed/") ".json" ".processed.json"

/-! ## The provider data capability and the extractor

authenticate_and_extract (app.py lines 88-128) and extract_data
(spotify_etl.py lines 25-67) are line-for-line the same logic: four
provider calls in sequence, one combined document, a local JSON write, and
an S3 upload to the bucket "spotify-raw-data-dk" under "raw/<file>". -/

/-- One recently-played event; ts is its timestamp in epoch milliseconds
(the unit in which after_timestamp_ms is expressed). -/
structure PlayEvent where
  ts : Int
  track : String
deriving DecidableEq, Repr

/-- The result of sp.current_user(): a JSON object whose id and
display_name fields may be absent (the code reads them with
.get("id", "unknown_user") and .get("display_name", "Unknown")). -/
structure UserProfile where
  id : Option String
  display_name : Option String
deriving DecidableEq, Repr

/-- One provider API call together with the parameters it was issued with. -/
inductive ApiCall where
  | currentUser
  | topArtists (limit : Nat) (time_range : String)
  | topTracks (limit : Nat) (time_range : String)
  | recentlyPlayed (limit : Nat) (after : Int)
deriving DecidableEq, Repr

/-- The provider capability behind the Spotipy client sp.  Each endpoint
either fails (Except.error msg: expired token, rate limit, network error)
or succeeds with its payload.  The top-artists and top-tracks payloads are
opaque JSON blobs to this repository, modelled as strings.  history is the
provider-side play history; recentlyPlayedErr is some e when the
recently-played call itself fails. -/
structure SpotifyClient where
  profileResp : Except String UserProfile
  topArtistsResp : Except String String
  topTracksResp : Except String String
  history : List PlayEvent
  recentlyPlayedErr : Option String
deriving Repr

/-- Modelled from the spec: the provider endpoint
recently_played(limit, after_epoch_ms) is external to the repository
(sp.current_user_recently_played is a Spotipy call); per the
specification it returns the play events "at or after now - 7 days",
i.e. those with timestamp ≥ the cutoff, at most limit of them. -/
def recently_played_api (sp : SpotifyClient) (limit : Nat) (after : Int) :
    Except String (List PlayEvent) :=
  match sp.recentlyPlayedErr with
  | some e => .error e
  | none => .ok ((sp.history.filter (fun ev => after ≤ ev.ts)).take limit)

/-- The combined raw document (combined_data in the source). -/
structure RawSnapshot where
  user_id : String
  display_name : String
  top_artists_long : String
  top_tracks_long : String
  recently_played : List PlayEvent
deriving DecidableEq, Repr

/-- One reading of datetime.now(): the wall-clock fields consumed by
strftime("%Y%m%d_%H%M%S") (second resolution) together with the epoch
timestamp in milliseconds consumed by .timestamp() * 1000 (the clock is
modelled at millisecond resolution, so the int(...) truncation is exact).
The sub-second part of the reading only enters through epochMs. -/
structure Wallclock where
  year : Nat
  month : Nat
  day : Nat
  hour : Nat
  minute : Nat
  second : Nat
  epochMs : Int
deriving DecidableEq, Repr

/-- Zero-padded two-digit field of strftime. -/
def pad2 (n : Nat) : String :=
  if n < 10 then "0" ++ toString n else toString n

/-- Zero-padded four-digit %Y field of strftime. -/
def pad4 (n : Nat) : String :=
  if n < 10 then "000" ++ toString n
  else if n < 100 then "00" ++ toString n
  else if n < 1000 then "0" ++ toString n
  else toString n

/-- Embeds datetime.now().strftime("%Y%m%d_%H%M%S")
(app.py line 119, spotify_etl.py line 59). -/
def strftime_key (w : Wallclock) : String :=
  pad4 w.year ++ pad2 w.month ++ pad2 w.day ++ "_" ++
    pad2 w.hour ++ pad2 w.minute ++ pad2 w.second

/-- Milliseconds in timedelta(days=7). -/
def seven_days_ms : Int := 7 * 24 * 60 * 60 * 1000

/-- The store side effects of one extraction, in order: local JSON files
written (open(local_file_name, "w") + json.dump) and S3 uploads performed
(upload_to_s3, entries (bucket, key, body)). -/
structure StoreLog where
  localFiles : List (String × RawSnapshot)
  s3Uploads : List (String × String × RawSnapshot)
deriving DecidableEq, Repr

/-- Embeds authenticate_and_extract(sp) (app.py lines 88-128); extract_data
in spotify_etl.py lines 25-67 is the same logic with the same bucket
constant (S3_BUCKET = "spotify-raw-data-dk").  now1 and now2 are the two
datetime.now() readings (line 105 for the cutoff, line 119 for the file
name); uploadOk says whether s3_client.upload_file succeeds (upload_to_s3
raises otherwise).  Returns the (combined_data, upload_message, raw_key)
result or the propagated error, the provider calls issued, and the store
log. -/
def authenticate_and_extract (sp : SpotifyClient) (now1 now2 : Wallclock)
    (uploadOk : Bool) :
    Except String (RawSnapshot × String × String) × List ApiCall × StoreLog :=
  let calls1 := [ApiCall.currentUser]
  match sp.profileResp with
  | .error e => (.error e, calls1, ⟨[], []⟩)
  | .ok current_user =>
    let user_id := current_user.id.getD "unknown_user"
    let display_name := current_user.display_name.getD "Unknown"
    let calls2 := calls1 ++ [ApiCall.topArtists 50 "long_term"]
    match sp.topArtistsResp with
    | .error e => (.error e, calls2, ⟨[], []⟩)
    | .ok top_artists_long =>
      let calls3 := calls2 ++ [ApiCall.topTracks 50 "long_term"]
      match sp.topTracksResp with
      | .error e => (.error e, calls3, ⟨[], []⟩)
      | .ok top_tracks_long =>
        let after_timestamp_ms := now1.epochMs - seven_days_ms
        let calls4 := calls3 ++ [ApiCall.recentlyPlayed 50 after_timestamp_ms]
        match recently_played_api sp 50 after_timestamp_ms with
        | .error e => (.error e, calls4, ⟨[], []⟩)
        | .ok recently_played =>
          let combined_data : RawSnapshot :=
            ⟨user_id, display_name, top_artists_long, top_tracks_long, recently_played⟩
          let local_file_name := "user_spotify_data_" ++ strftime_key now2 ++ ".json"
          let raw_key := "raw/" ++ local_file_name
          if uploadOk then
            let upload_message :=
              "Uploaded " ++ local_file_name ++ " to bucket \x27spotify-raw-data-dk\x27 as \x27"
                ++ raw_key ++ "\x27."
            (.ok (combined_data, upload_message, raw_key), calls4,
              ⟨[(local_file_name, combined_data)],
               [("spotify-raw-data-dk", raw_key, combined_data)]⟩)
          else
            (.error "Error uploading file", calls4,
              ⟨[(local_file_name, combined_data)], []⟩)

/-- Reuses the shared body: extract_data (spotify_etl.py lines 25-67) is
identical to authenticate_and_extract (app.py lines 88-128). -/
def extract_data (sp : SpotifyClient) (now1 now2 : Wallclock) (uploadOk : Bool) :
    Except String (RawSnapshot × String × String) × List ApiCall × StoreLog :=
  authenticate_and_extract sp now1 now2 uploadOk

/-- Failure of any of the four provider calls of one extraction. -/
def providerCallFails (sp : SpotifyClient) : Prop :=
  (∃ e, sp.profileResp = .error e) ∨ (∃ e, sp.topArtistsResp = .error e) ∨
  (∃ e, sp.topTracksResp = .error e) ∨ (∃ e, sp.recentlyPlayedErr = some e)

/-! ## OAuth, the processed document, and main -/

/-- Provider-side OAuth state: which authorization codes have been
consumed, and which are currently valid (issued, unexpired). -/
structure AuthWorld where
  consumed : List String
  valid : List String
deriving DecidableEq, Repr

/-- Modelled from the spec: the provider token endpoint behind
sp_oauth.get_access_token(code) — Spotipy is an external collaborator,
only its caller is in src/.  Per the specification,
exchange_code_for_token(code) makes a single round trip and fails with
AuthExchangeError when the code is invalid, expired, or already consumed
(authorization codes are single-use); on success it returns an access
token and the code becomes consumed on the provider side. -/
def exchange_code_for_token (w : AuthWorld) (code : String) :
    Except String String × AuthWorld :=
  if code ∈ w.consumed then
    (.error "AuthExchangeError: authorization code already consumed", w)
  else if code ∈ w.valid then
    (.ok ("token_for_" ++ code), { w with consumed := code :: w.consumed })
  else
    (.error "AuthExchangeError: invalid authorization code", w)

/-- The genres object (labels, sizes). -/
structure GenresObj where
  labels : List String
  sizes : List ℚ
deriving DecidableEq, Repr

/-- The day_vs_night object; each percent field may be absent (read with
.get(..., 0)). -/
structure DayNightObj where
  day_percent : Option ℚ
  night_percent : Option ℚ
deriving DecidableEq, Repr

/-- One entry of top_artists; every field is read with .get. -/
structure ArtistItem where
  rank : Option Nat
  artist_name : Option String
  artist_image : Option String
deriving DecidableEq, Repr

/-- One entry of top_tracks; every field is read with .get. -/
structure TrackItem where
  rank : Option Nat
  track_name : Option String
  artist_name : Option String
  album_image : Option String
deriving DecidableEq, Repr

/-- The listening_time object. -/
structure ListeningTimeObj where
  daily_listening_labels : List String
  daily_listening_values : List ℚ
deriving DecidableEq, Repr

/-- The processed JSON document consumed by the six display sections.
Every top-level field may be absent (none), matching the
processed_data.get(...) reads with defaults.  Numeric values are modelled
over ℚ (the source operates on Python floats; the arithmetic is modelled
exactly on the ideal values). -/
structure ProcessedData where
  genres : Option GenresObj
  mainstream_score : Option ℚ
  day_vs_night : Option DayNightObj
  top_artists : Option (List ArtistItem)
  top_tracks : Option (List TrackItem)
  listening_time : Option ListeningTimeObj
deriving DecidableEq, Repr

/-- Embeds Python round(x, 1) scaled to the integer part: round half to
even at the nearest integer. -/
def roundHalfEven (x : ℚ) : ℤ :=
  let f := ⌊x⌋
  if x - f < 1 / 2 then f
  else if 1 / 2 < x - f then f + 1
  else if 2 ∣ f then f else f + 1

/-- Embeds round(mainstream_score, 1) (app.py line 234) on the ideal
(real-valued) reading of the score. -/
def pyRound1 (x : ℚ) : ℚ := (roundHalfEven (10 * x) : ℚ) / 10

/-- The narrative branch chosen by the mainstream-score section. -/
inductive MainstreamMsg where
  | veryMainstream
  | moderatelyMainstream
  | quiteIndie
  | noData
deriving DecidableEq, Repr

/-- Embeds the mainstream-score section (app.py lines 231-244): the branch
selected and the rounded value that the section displays (the value is
shown only when the branch is not noData). -/
def mainstream_section (processed_data : ProcessedData) : MainstreamMsg × ℚ :=
  let mainstream_score := processed_data.mainstream_score.getD 0
  let mainstream_score_rounded := pyRound1 mainstream_score
  (if 0 < mainstream_score_rounded then
     if 70 ≤ mainstream_score_rounded then .veryMainstream
     else if 40 ≤ mainstream_score_rounded then .moderatelyMainstream
     else .quiteIndie
   else .noData,
   mainstream_score_rounded)

/-- The narrative branch chosen by the day-vs-night section. -/
inductive DayNightMsg where
  | nightOwl
  | daytimeStar
deriving DecidableEq, Repr

/-- Embeds the day-vs-night section (app.py lines 246-255): branch, day
percent and night percent as displayed (a missing object and missing
fields default to 0; the comparison night_percent > day_percent picks the
night branch). -/
def day_vs_night_section (processed_data : ProcessedData) :
    DayNightMsg × ℚ × ℚ :=
  let day_vs_night := processed_data.day_vs_night.getD ⟨none, none⟩
  let day_percent := day_vs_night.day_percent.getD 0
  let night_percent := day_vs_night.night_percent.getD 0
  (if day_percent < night_percent then .nightOwl else .daytimeStar,
   day_percent, night_percent)

/-- Truthiness test of the genre section (app.py line 218):
if genre_labels and genre_sizes. -/
def genres_has_data (processed_data : ProcessedData) : Bool :=
  let genres := processed_data.genres.getD ⟨[], []⟩
  !genres.labels.isEmpty && !genres.sizes.isEmpty

/-- Truthiness test of the daily-listening section (app.py line 272):
if labels and values. -/
def listening_has_data (processed_data : ProcessedData) : Bool :=
  let listening_time := processed_data.listening_time.getD ⟨[], []⟩
  !listening_time.daily_listening_labels.isEmpty &&
    !listening_time.daily_listening_values.isEmpty

/-- One observable Streamlit effect of a run of main. -/
inductive Effect where
  | showTitle
  | showError (msg : String)
  | showSuccess (msg : String)
  | showInfo (msg : String)
  | showJson
  | sleepSeconds (n : Nat)
  | s3GetObject (bucket : String) (key : String)
  | sectionGenres (hasData : Bool)
  | sectionMainstream (msg : MainstreamMsg) (displayed : ℚ)
  | sectionDayNight (msg : DayNightMsg) (day : ℚ) (night : ℚ)
  | sectionTopArtists (hasData : Bool)
  | sectionTopTracks (hasData : Bool)
  | sectionListening (hasData : Bool)
  | showAuthorizeLink
deriving DecidableEq, Repr

/-- Contents of the processed bucket "spotify-processed-data-dk".  A key
absent from objects models every failure mode of the lookup for that key —
object not present, permission error, malformed JSON body — all of which
reach the same except branch of fetch_processed_data. -/
structure S3World where
  objects : List (String × ProcessedData)
deriving DecidableEq, Repr

/-- Embeds fetch_processed_data(processed_key) (app.py lines 26-40): one
get_object against the processed bucket; on any failure it shows an error
and returns the distinguished unavailable result none (it is a total
function — it never raises to its caller). -/
def fetch_processed_data (s3 : S3World) (processed_key : String) :
    Option ProcessedData × List Effect :=
  match List.lookup processed_key s3.objects with
  | some data => (some data, [.s3GetObject "spotify-processed-data-dk" processed_key])
  | none =>
    (none, [.s3GetObject "spotify-processed-data-dk" processed_key,
            .showError "Error fetching processed data"])

/-- Embeds the six display sections (app.py lines 213-276), rendered in
order from the processed JSON. -/
def render_sections (processed_data : ProcessedData) : List Effect :=
  [ .sectionGenres (genres_has_data processed_data),
    .sectionMainstream (mainstream_section processed_data).1
      (mainstream_section processed_data).2,
    .sectionDayNight (day_vs_night_section processed_data).1
      (day_vs_night_section processed_data).2.1
      (day_vs_night_section processed_data).2.2,
    .sectionTopArtists (!(processed_data.top_artists.getD []).isEmpty),
    .sectionTopTracks (!(processed_data.top_tracks.getD []).isEmpty),
    .sectionListening (listening_has_data processed_data) ]

/-- Embeds main() (app.py lines 155-283).  Inputs: queryCode — the code
query parameter from st.experimental_get_query_params(); world — the
provider-side OAuth state; sp — the provider data capability; now1, now2
— the two datetime.now() readings inside authenticate_and_extract;
uploadOk — whether the raw S3 upload succeeds; s3 — the processed bucket.
Output: the effect trace, the provider OAuth state afterwards, and the
query parameters after the run — main never calls
st.experimental_set_query_params, so they are returned exactly as
received. -/
def main (queryCode : Option String) (world : AuthWorld) (sp : SpotifyClient)
    (now1 now2 : Wallclock) (uploadOk : Bool) (s3 : S3World) :
    List Effect × AuthWorld × Option String :=
  match queryCode with
  | none => ([.showTitle, .showAuthorizeLink], world, none)
  | some code =>
    match exchange_code_for_token world code with
    | (.error e, world1) =>
      ([.showTitle, .showError ("Error during Spotify authentication/extraction: " ++ e)],
       world1, some code)
    | (.ok _token, world1) =>
      match authenticate_and_extract sp now1 now2 uploadOk with
      | (.error e, _, _) =>
        ([.showTitle, .showError ("Error during Spotify authentication/extraction: " ++ e)],
         world1, some code)
      | (.ok (_raw_data, upload_message, raw_key), _, _) =>
        let processed_key := derive_processed_key raw_key
        let fetched := fetch_processed_data s3 processed_key
        let beforeSections :=
          [Effect.showTitle, .showSuccess upload_message, .showJson,
           .showInfo "Waiting for data processing (Lambda)...", .sleepSeconds 5] ++ fetched.2
        match fetched.1 with
        | none =>
          (beforeSections ++ [.showError "Failed to load processed data from S3."],
           world1, some code)
        | some processed_data =>
          (beforeSections ++ [.showJson] ++ render_sections processed_data,
           world1, some code)

/-! ## Trace predicates and concrete evaluation inputs -/

/-- Tests whether an effect is a processed-data lookup. -/
def isFetch : Effect → Bool
  | .s3GetObject _ _ => true
  | _ => false

/-- Tests whether an effect renders one of the six display sections. -/
def isSection : Effect → Bool
  | .sectionGenres _ => true
  | .sectionMainstream _ _ => true
  | .sectionDayNight _ _ _ => true
  | .sectionTopArtists _ => true
  | .sectionTopTracks _ => true
  | .sectionListening _ => true
  | _ => false

/-- Scans a trace and checks that every lookup effect occurs after a
sleepSeconds 5 effect; the accumulator records whether the sleep has been
seen yet. -/
def fetchesAfterSleep5 : List Effect → Bool → Bool
  | [], _ => true
  | .sleepSeconds 5 :: rest, _ => fetchesAfterSleep5 rest true
  | e :: rest, seen => (!(isFetch e) || seen) && fetchesAfterSleep5 rest seen

/-- A concrete clock reading: 2026-01-15 09:30:42 UTC. -/
def wcA : Wallclock := ⟨2026, 1, 15, 9, 30, 42, 1768469442000⟩

/-- The same wall-clock second as wcA with a different sub-second epoch. -/
def wcB : Wallclock := ⟨2026, 1, 15, 9, 30, 42, 1768469442999⟩

/-- A client whose profile call fails. -/
def spFailProfile : SpotifyClient := ⟨.error "rate limit", .ok "A", .ok "T", [], none⟩

/-- A fully successful client whose history holds one event exactly at the
7-day cutoff for wcA and one recent event. -/
def spBoundary : SpotifyClient :=
  ⟨.ok ⟨some "dk", some "Dani"⟩, .ok "A", .ok "T",
   [⟨1767864642000, "edge"⟩, ⟨1768469442000, "recent"⟩], none⟩

/-- The extraction output of spBoundary at clock wcA. -/
def outB : RawSnapshot × String × String :=
  ⟨⟨"dk", "Dani", "A", "T", [⟨1767864642000, "edge"⟩, ⟨1768469442000, "recent"⟩]⟩,
   "Uploaded user_spotify_data_20260115_093042.json to bucket \x27spotify-raw-data-dk\x27 as \x27raw/user_spotify_data_20260115_093042.json\x27.",
   "raw/user_spotify_data_20260115_093042.json"⟩

/-- An empty processed bucket. -/
def s3Empty : S3World := ⟨[]⟩

/-- An OAuth world where the code "abc" is valid and never consumed. -/
def worldAbc : AuthWorld := ⟨[], ["abc"]⟩

/-! ## Helper lemmas -/

/-- Reassociation of the raw-key literal append. -/
theorem raw_key_flat (s : String) :
    "raw/" ++ ("user_spotify_data_" ++ s ++ ".json") =
      "raw/user_spotify_data_" ++ s ++ ".json" := by
  rw [← String.append_assoc, ← String.append_assoc,
    show ("raw/" ++ "user_spotify_data_" : String) = "raw/user_spotify_data_" from rfl]

/-- A successful extraction returns exactly the first 50 history events at
or after the 7-day cutoff as recently_played. -/
theorem extract_ok_recently_played (sp : SpotifyClient) (now1 now2 : Wallclock)
    (uploadOk : Bool) (out : RawSnapshot × String × String)
    (h : (authenticate_and_extract sp now1 now2 uploadOk).1 = .ok out) :
    out.1.recently_played =
      (sp.history.filter (fun ev => now1.epochMs - seven_days_ms ≤ ev.ts)).take 50 := by
  obtain ⟨p, a, t, hist, r⟩ := sp
  cases p <;> cases a <;> cases t <;> cases r <;> cases uploadOk <;>
    simp_all [authenticate_and_extract, recently_played_api]
  rw [← h]

/-- A successful extraction uses the timestamped raw key and uploads the
document under it to the fixed raw bucket. -/
theorem extract_ok_raw_key (sp : SpotifyClient) (now1 now2 : Wallclock)
    (uploadOk : Bool) (out : RawSnapshot × String × String)
    (h : (authenticate_and_extract sp now1 now2 uploadOk).1 = .ok out) :
    out.2.2 = "raw/user_spotify_data_" ++ strftime_key now2 ++ ".json" ∧
    (authenticate_and_extract sp now1 now2 uploadOk).2.2.s3Uploads =
      [("spotify-raw-data-dk", out.2.2, out.1)] := by
  obtain ⟨p, a, t, hist, r⟩ := sp
  cases p <;> cases a <;> cases t <;> cases r <;> cases uploadOk <;>
    simp_all [authenticate_and_extract, recently_played_api]
  rw [← h]
  exact ⟨raw_key_flat (strftime_key now2), rfl, rfl⟩

/-! ## Claim theorems -/

/-- C1 counterexample: the processed-key derivation is not round-trip
stable.  Applying derive_processed_key to its own output performs a
further transform: the .json → .processed.json rule fires again, yielding
processed/foo.processed.processed.json, which differs from the first
output. -/
theorem C1_counterexample :
    derive_processed_key (derive_processed_key "raw/foo.json") =
      "processed/foo.processed.processed.json" ∧
    derive_processed_key (derive_processed_key "raw/foo.json") ≠
      derive_processed_key "raw/foo.json" := by decide

/-- C1 (amended): derive("raw/foo.json") = "processed/foo.processed.json";
on that output the raw/ → processed/ prefix rule indeed no longer applies
(no occurrence of raw/ remains), but the .json → .processed.json rule
fires again, so a second application is a further transform producing
processed/foo.processed.processed.json. -/
theorem C1_key_derivation :
    derive_processed_key "raw/foo.json" = "processed/foo.processed.json" ∧
    pyReplace (derive_processed_key "raw/foo.json") "raw/" "processed/" =
      derive_processed_key "raw/foo.json" ∧
    derive_processed_key (derive_processed_key "raw/foo.json") =
      "processed/foo.processed.processed.json" := by decide

/-- C2: the consumed authorization code is never removed from the URL
state: after a first run in which the exchange succeeds (a success message
is shown, the code becomes consumed at the provider), main still returns
the code in the query parameters, and a rerun with those same parameters
(a page refresh) performs a second exchange of the same code and fails
with AuthExchangeError — contradicting the removal invariant the
specification states. -/
theorem C2_code_replayed :
    Effect.showSuccess outB.2.1 ∈
      (main (some "abc") worldAbc spBoundary wcA wcA true s3Empty).1 ∧
    "abc" ∈ (main (some "abc") worldAbc spBoundary wcA wcA true s3Empty).2.1.consumed ∧
    (main (some "abc") worldAbc spBoundary wcA wcA true s3Empty).2.2 = some "abc" ∧
    (main (some "abc")
        (main (some "abc") worldAbc spBoundary wcA wcA true s3Empty).2.1
        spBoundary wcA wcA true s3Empty).1 =
      [.showTitle, .showError
        "Error during Spotify authentication/extraction: AuthExchangeError: authorization code already consumed"] := by
  decide

/-- C3: extraction is atomic with respect to provider failures: if any of
the four provider calls fails, authenticate_and_extract (and the identical
extract_data) returns the underlying error and the store log is empty —
no local file is written and nothing is uploaded to object storage. -/
theorem C3_extraction_atomic (sp : SpotifyClient) (now1 now2 : Wallclock)
    (uploadOk : Bool) (h : providerCallFails sp) :
    (∃ e, (authenticate_and_extract sp now1 now2 uploadOk).1 = .error e) ∧
    (authenticate_and_extract sp now1 now2 uploadOk).2.2 = ⟨[], []⟩ := by
  obtain ⟨p, a, t, hist, r⟩ := sp
  simp only [providerCallFails] at h
  cases p <;> cases a <;> cases t <;> cases r <;>
    simp_all [authenticate_and_extract, recently_played_api]

/-- C3 witness: a concrete client whose profile call fails extracts
nothing and stores nothing. -/
theorem C3_witness :
    (authenticate_and_extract spFailProfile wcA wcA true).1 = .error "rate limit" ∧
    (authenticate_and_extract spFailProfile wcA wcA true).2.2 = ⟨[], []⟩ :=
  ⟨rfl, (C3_extraction_atomic spFailProfile wcA wcA true (Or.inl ⟨"rate limit", rfl⟩)).2⟩

/-- C4 counterexample: with no processed object present, the lookup
returns the distinguished unavailable result, but the caller does not
render the six no-data fallbacks: the run renders zero sections and shows
an error instead. -/
theorem C4_counterexample :
    (fetch_processed_data s3Empty
        "processed/user_spotify_data_20260115_093042.processed.json").1 = none ∧
    ((main (some "xyz") ⟨[], ["xyz"]⟩ spBoundary wcA wcA true s3Empty).1.filter isSection) = [] ∧
    Effect.showError "Failed to load processed data from S3." ∈
      (main (some "xyz") ⟨[], ["xyz"]⟩ spBoundary wcA wcA true s3Empty).1 := by
  decide

/-- C4 (amended): on lookup failure fetch_processed_data returns the
distinguished unavailable result none without raising (it is total, and
shows its own error effect); the caller then shows an error and returns
early, rendering none of the six sections — in particular, with an empty
processed bucket no run renders any section, and a run that reached the
lookup shows the failure error.  Sections are rendered only when the
lookup succeeds, and then all six are rendered, each depending only on
its own sub-object of the processed document. -/
theorem C4_processed_unavailable :
    (∀ s3 key, List.lookup key s3.objects = none →
       (fetch_processed_data s3 key).1 = none ∧
       Effect.showError "Error fetching processed data" ∈ (fetch_processed_data s3 key).2) ∧
    (∀ qc world sp n1 n2 up s3,
       (main qc world sp n1 n2 up s3).1.filter isSection = [] ∨
       ∃ pd, (main qc world sp n1 n2 up s3).1.filter isSection = render_sections pd) ∧
    (∀ qc world sp n1 n2 up,
       (main qc world sp n1 n2 up ⟨[]⟩).1.filter isSection = [] ∧
       ((∃ m, Effect.showSuccess m ∈ (main qc world sp n1 n2 up ⟨[]⟩).1) →
         Effect.showError "Failed to load processed data from S3." ∈
           (main qc world sp n1 n2 up ⟨[]⟩).1)) ∧
    (∀ pd1 pd2 : ProcessedData, pd1.genres = pd2.genres →
       (render_sections pd1).get? 0 = (render_sections pd2).get? 0) ∧
    (∀ pd1 pd2 : ProcessedData, pd1.mainstream_score = pd2.mainstream_score →
       (render_sections pd1).get? 1 = (render_sections pd2).get? 1) ∧
    (∀ pd1 pd2 : ProcessedData, pd1.day_vs_night = pd2.day_vs_night →
       (render_sections pd1).get? 2 = (render_sections pd2).get? 2) ∧
    (∀ pd1 pd2 : ProcessedData, pd1.top_artists = pd2.top_artists →
       (render_sections pd1).get? 3 = (render_sections pd2).get? 3) ∧
    (∀ pd1 pd2 : ProcessedData, pd1.top_tracks = pd2.top_tracks →
       (render_sections pd1).get? 4 = (render_sections pd2).get? 4) ∧
    (∀ pd1 pd2 : ProcessedData, pd1.listening_time = pd2.listening_time →
       (render_sections pd1).get? 5 = (render_sections pd2).get? 5) := by
  refine ⟨?_, ?_, ?_, ?_, ?_, ?_, ?_, ?_, ?_⟩
  · intro s3 key h
    simp [fetch_processed_data, h]
  · intro qc world sp n1 n2 up s3
    unfold main
    cases qc with
    | none => left; simp [isSection]
    | some code =>
      rcases hE : exchange_code_for_token world code with ⟨res, world1⟩
      cases res with
      | error e => left; simp [hE, isSection]
      | ok tok =>
        rcases hX : authenticate_and_extract sp n1 n2 up with ⟨xres, calls, log⟩
        cases xres with
        | error e => left; simp [hE, hX, isSection]
        | ok out =>
          obtain ⟨raw, msg, key⟩ := out
          rcases hL : List.lookup (derive_processed_key key) s3.objects with _ | pd
          · left; simp [hE, hX, hL, fetch_processed_data, isSection]
          · right
            exact ⟨pd, by simp [hE, hX, hL, fetch_processed_data, isSection, render_sections]⟩
  · intro qc world sp n1 n2 up
    unfold main
    cases qc with
    | none => simp [isSection]
    | some code =>
      rcases hE : exchange_code_for_token world code with ⟨res, world1⟩
      cases res with
      | error e => simp [hE, isSection]
      | ok tok =>
        rcases hX : authenticate_and_extract sp n1 n2 up with ⟨xres, calls, log⟩
        cases xres with
        | error e => simp [hE, hX, isSection]
        | ok out =>
          obtain ⟨raw, msg, key⟩ := out
          simp [hE, hX, fetch_processed_data, isSection]
  · intro pd1 pd2 h; simp [render_sections, genres_has_data, h]
  · intro pd1 pd2 h; simp [render_sections, mainstream_section, h]
  · intro pd1 pd2 h; simp [render_sections, day_vs_night_section, h]
  · intro pd1 pd2 h; simp [render_sections, h]
  · intro pd1 pd2 h; simp [render_sections, h]
  · intro pd1 pd2 h; simp [render_sections, listening_has_data, h]

/-- C4 witness: with an empty processed bucket the lookup is unavailable
and a concrete run renders no section. -/
theorem C4_witness :
    (fetch_processed_data ⟨[]⟩ "processed/x.processed.json").1 = none ∧
    (main none ⟨[], []⟩ spBoundary wcA wcA true ⟨[]⟩).1.filter isSection = [] := by
  have H := C4_processed_unavailable
  exact ⟨(H.1 ⟨[]⟩ "processed/x.processed.json" rfl).1,
    (H.2.2.1 none ⟨[], []⟩ spBoundary wcA wcA true).1⟩

/-- C5: on a successful extraction, recently_played contains only events
with timestamp ≥ now - 7 days, where the cutoff is the millisecond epoch
computed at call time; the boundary is inclusive — a history event whose
timestamp is exactly the cutoff is included (whenever the 7-day window
holds no more than the 50-item response limit). -/
theorem C5_recently_played_window (sp : SpotifyClient) (now1 now2 : Wallclock)
    (uploadOk : Bool) (out : RawSnapshot × String × String)
    (h : (authenticate_and_extract sp now1 now2 uploadOk).1 = .ok out) :
    (∀ ev ∈ out.1.recently_played, now1.epochMs - seven_days_ms ≤ ev.ts) ∧
    (∀ ev ∈ sp.history, ev.ts = now1.epochMs - seven_days_ms →
      (sp.history.filter (fun e => now1.epochMs - seven_days_ms ≤ e.ts)).length ≤ 50 →
      ev ∈ out.1.recently_played) := by
  have hr := extract_ok_recently_played sp now1 now2 uploadOk out h
  constructor
  · intro ev hev
    rw [hr] at hev
    have hmem := List.mem_filter.mp (List.take_subset 50 _ hev)
    exact of_decide_eq_true hmem.2
  · intro ev hev hts hlen
    rw [hr, List.take_of_length_le hlen]
    exact List.mem_filter.mpr ⟨hev, by simp only [decide_eq_true_eq]; omega⟩

/-- C5 witness: the event exactly at the cutoff of the concrete clock is
included in the concrete extraction. -/
theorem C5_witness :
    (⟨1767864642000, "edge"⟩ : PlayEvent) ∈ outB.1.recently_played ∧
    wcA.epochMs - seven_days_ms ≤ (1767864642000 : Int) := by
  have H := C5_recently_played_window spBoundary wcA wcA true outB (by rfl)
  have hm := H.2 ⟨1767864642000, "edge"⟩ (by decide) (by decide) (by decide)
  exact ⟨hm, H.1 ⟨1767864642000, "edge"⟩ hm⟩

/-- C6: a successful extraction stores the raw document in the fixed raw
bucket spotify-raw-data-dk under raw/user_spotify_data_<YYYYMMDD_HHMMSS>.json,
where the timestamp is the second-resolution wall clock of the extraction
moment; two extractions whose wall clocks agree to the second (even with
different sub-second epochs, different clients and different cutoff
clocks) produce the same key. -/
theorem C6_raw_key (sp sp2 : SpotifyClient) (n1 n1b now2 now2b : Wallclock)
    (u u2 : Bool) (out out2 : RawSnapshot × String × String)
    (h : (authenticate_and_extract sp n1 now2 u).1 = .ok out)
    (h2 : (authenticate_and_extract sp2 n1b now2b u2).1 = .ok out2)
    (hy : now2.year = now2b.year) (hmo : now2.month = now2b.month)
    (hd : now2.day = now2b.day) (hh : now2.hour = now2b.hour)
    (hmi : now2.minute = now2b.minute) (hs : now2.second = now2b.second) :
    out.2.2 = "raw/user_spotify_data_" ++ strftime_key now2 ++ ".json" ∧
    (authenticate_and_extract sp n1 now2 u).2.2.s3Uploads =
      [("spotify-raw-data-dk", out.2.2, out.1)] ∧
    out.2.2 = out2.2.2 := by
  have hk : strftime_key now2 = strftime_key now2b := by
    simp [strftime_key, hy, hmo, hd, hh, hmi, hs]
  have A := extract_ok_raw_key sp n1 now2 u out h
  have B := extract_ok_raw_key sp2 n1b now2b u2 out2 h2
  exact ⟨A.1, A.2, by rw [A.1, B.1, hk]⟩

/-- C6 witness: the concrete extraction at 2026-01-15 09:30:42 produces
the key raw/user_spotify_data_20260115_093042.json and uploads under it
to the fixed bucket; the second hypothesis run uses a clock differing only
in the sub-second epoch. -/
theorem C6_witness :
    outB.2.2 = "raw/user_spotify_data_" ++ strftime_key wcA ++ ".json" ∧
    (authenticate_and_extract spBoundary wcA wcA true).2.2.s3Uploads =
      [("spotify-raw-data-dk", outB.2.2, outB.1)] := by
  have H := C6_raw_key spBoundary spBoundary wcA wcA wcA wcB true true outB outB
    (by rfl) (by rfl) rfl rfl rfl rfl rfl rfl
  exact ⟨H.1, H.2.1⟩

/-- C7: a successful extraction issues exactly these four provider calls
in this order: the user profile; top artists with the long-term window and
limit 50; top tracks with the long-term window and limit 50; recently
played with limit 50 and the 7-day millisecond-epoch cutoff computed at
call time. -/
theorem C7_four_calls (sp : SpotifyClient) (now1 now2 : Wallclock) (uploadOk : Bool)
    (out : RawSnapshot × String × String)
    (h : (authenticate_and_extract sp now1 now2 uploadOk).1 = .ok out) :
    (authenticate_and_extract sp now1 now2 uploadOk).2.1 =
      [ApiCall.currentUser, ApiCall.topArtists 50 "long_term",
       ApiCall.topTracks 50 "long_term",
       ApiCall.recentlyPlayed 50 (now1.epochMs - seven_days_ms)] := by
  obtain ⟨p, a, t, hist, r⟩ := sp
  cases p <;> cases a <;> cases t <;> cases r <;> cases uploadOk <;>
    simp_all [authenticate_and_extract, recently_played_api]

/-- C7 witness: the concrete extraction issues the four calls with the
concrete cutoff. -/
theorem C7_witness :
    (authenticate_and_extract spBoundary wcA wcA true).2.1 =
      [ApiCall.currentUser, ApiCall.topArtists 50 "long_term",
       ApiCall.topTracks 50 "long_term", ApiCall.recentlyPlayed 50 1767864642000] := by
  have H := C7_four_calls spBoundary wcA wcA true outB (by rfl)
  rw [H]; decide

/-- C8: every run of main performs at most one processed-data lookup,
every lookup it performs comes after the fixed time.sleep(5), and a run
that reached the post-upload phase (a success message was shown) performs
exactly one lookup — there is no polling loop and no second attempt,
whatever the processed bucket contains. -/
theorem C8_single_lookup (queryCode : Option String) (world : AuthWorld)
    (sp : SpotifyClient) (now1 now2 : Wallclock) (uploadOk : Bool) (s3 : S3World) :
    ((main queryCode world sp now1 now2 uploadOk s3).1.filter isFetch).length ≤ 1 ∧
    fetchesAfterSleep5 (main queryCode world sp now1 now2 uploadOk s3).1 false = true ∧
    ((∃ m, Effect.showSuccess m ∈ (main queryCode world sp now1 now2 uploadOk s3).1) →
      ((main queryCode world sp now1 now2 uploadOk s3).1.filter isFetch).length = 1) := by
  unfold main
  cases queryCode with
  | none => simp [isFetch, fetchesAfterSleep5]
  | some code =>
    rcases hE : exchange_code_for_token world code with ⟨res, world1⟩
    cases res with
    | error e => simp [hE, isFetch, fetchesAfterSleep5]
    | ok tok =>
      rcases hX : authenticate_and_extract sp now1 now2 uploadOk with ⟨xres, calls, log⟩
      cases xres with
      | error e => simp [hE, hX, isFetch, fetchesAfterSleep5]
      | ok out =>
        obtain ⟨raw, msg, key⟩ := out
        rcases hL : List.lookup (derive_processed_key key) s3.objects with _ | pd
        · simp [hE, hX, hL, fetch_processed_data, isFetch, fetchesAfterSleep5]
        · simp [hE, hX, hL, fetch_processed_data, isFetch, fetchesAfterSleep5, render_sections]

/-- C8 witness: a concrete run that reaches the post-upload phase performs
exactly one lookup, after the sleep. -/
theorem C8_witness :
    ((main (some "abc") worldAbc spBoundary wcA wcA true s3Empty).1.filter isFetch).length = 1 ∧
    fetchesAfterSleep5 (main (some "abc") worldAbc spBoundary wcA wcA true s3Empty).1 false = true := by
  have H := C8_single_lookup (some "abc") worldAbc spBoundary wcA wcA true s3Empty
  exact ⟨H.2.2 ⟨outB.2.1, by decide⟩, H.2.1⟩

/-- C9: the mainstream-score section displays the score rounded to one
decimal place — 72.34 displays as 72.3 — and the very-mainstream narrative
branch is selected exactly when the rounded score is ≥ 70. -/
theorem C9_mainstream_score :
    (∀ pd : ProcessedData,
       (mainstream_section pd).2 = pyRound1 (pd.mainstream_score.getD 0)) ∧
    (mainstream_section ⟨none, some (3617 / 50), none, none, none, none⟩).2 = 723 / 10 ∧
    (mainstream_section ⟨none, some (3617 / 50), none, none, none, none⟩).1 =
      .veryMainstream ∧
    (∀ pd : ProcessedData, (mainstream_section pd).1 = .veryMainstream ↔
       70 ≤ pyRound1 (pd.mainstream_score.getD 0)) := by
  refine ⟨fun pd => rfl, ?_, ?_, ?_⟩
  · norm_num [mainstream_section, pyRound1, roundHalfEven]
  · norm_num [mainstream_section, pyRound1, roundHalfEven]
  · intro pd
    simp only [mainstream_section]
    split_ifs with h1 h2 h3 <;> simp_all <;> linarith

/-- C10 counterexample: with day_vs_night = some object whose day_percent
field is missing (defaulting to 0) and night_percent = 70 present, the
code selects the night-dominant narrative — not the daytime narrative the
claim prescribes for a missing field. -/
theorem C10_counterexample :
    (day_vs_night_section ⟨none, none, some ⟨none, some 70⟩, none, none, none⟩).1 =
      .nightOwl := by
  norm_num [day_vs_night_section]

/-- C10 (amended): the night-dominant narrative is selected exactly when
night_percent (default 0) is strictly greater than day_percent (default
0); equal percentages select the daytime narrative, and so do a missing
day_vs_night object or a pair of missing fields — absent data is
indistinguishable from a day-dominant result.  (A missing day_percent with
a positive present night_percent still selects the night narrative.) -/
theorem C10_day_vs_night :
    (∀ pd : ProcessedData, (day_vs_night_section pd).1 = .nightOwl ↔
       (pd.day_vs_night.getD ⟨none, none⟩).day_percent.getD 0 <
         (pd.day_vs_night.getD ⟨none, none⟩).night_percent.getD 0) ∧
    (∀ pd : ProcessedData, pd.day_vs_night = none →
       (day_vs_night_section pd).1 = .daytimeStar) ∧
    (∀ pd : ProcessedData, ∀ obj : DayNightObj, pd.day_vs_night = some obj →
       obj.day_percent.getD 0 = obj.night_percent.getD 0 →
       (day_vs_night_section pd).1 = .daytimeStar) ∧
    (day_vs_night_section ⟨none, none, some ⟨none, none⟩, none, none, none⟩).1 =
      .daytimeStar := by
  refine ⟨?_, ?_, ?_, ?_⟩
  · intro pd
    simp only [day_vs_night_section]
    split_ifs with h <;> simp [h]
  · intro pd h
    simp [day_vs_night_section, h]
  · intro pd obj h heq
    simp [day_vs_night_section, h, heq]
  · simp [day_vs_night_section]

/-- C10 witness: a fully missing document and an equal-percent object both
select the daytime narrative. -/
theorem C10_witness :
    (day_vs_night_section ⟨none, none, none, none, none, none⟩).1 = .daytimeStar ∧
    (day_vs_night_section ⟨none, none, some ⟨some 5, some 5⟩, none, none, none⟩).1 =
      .daytimeStar := by
  have H := C10_day_vs_night
  exact ⟨H.2.1 _ rfl, H.2.2.1 _ ⟨some 5, some 5⟩ rfl rfl⟩

end DK
